import Mathlib

/-!
A shallow embedding of the core logic of `src/main.cpp` (THE FOCUS ENFORCER
v1.0 firmware for a Wemos D1-mini, ESP8266): the session state machine
(`enterState`, `updateStateMachine`, `handleCommand`), the KY-033 lid-sensor
interrupt/debounce pipeline (`irISR`, `processIRInterrupt`), the LD2410
presence hysteresis filter (`readRadar`), the WiFi reconnection supervisor
(`handleWiFiReconnect`) and the outbound message emitters (`sendSensorData`,
`sendStateChange`, `sendHeartbeat`), composed into the main polling loop
(`loopTick`), together with theorems about them.

Millisecond timestamps are `unsigned long` on the target, so all time
arithmetic is carried out modulo `2 ^ 32` (`usub`, `uadd`), matching the
wraparound-tolerant unsigned-difference idiom of the source.  Hardware reads
(the IR line level, the raw radar reading, WiFi status, inbound WebSocket
payloads) are inputs to the step functions.  The LCD rendering and the
microphone / NFC auxiliary readings only produce display text and optional
telemetry fields and carry no session logic, so they are outside the
modelled core.
-/

namespace FocusEnforcer

/-- The modulus of `unsigned long` arithmetic on the ESP8266 target:
`2 ^ 32`. -/
def W : Nat := 4294967296

/-- Wrapping subtraction on `unsigned long`, the idiom used by the firmware
for every elapsed-time computation (`millis() - start`). -/
def usub (a b : Nat) : Nat := (a + W - b) % W

/-- Wrapping addition on `unsigned long` (used by `totalFocusTime += ...`). -/
def uadd (a b : Nat) : Nat := (a + b) % W

/-- `PREPARE_DURATION_MS`: the 10-second preparation grace period. -/
def PREPARE_DURATION_MS : Nat := 10000

/-- `SENSOR_INTERVAL_MS`: sensor polling cadence (10 Hz). -/
def SENSOR_INTERVAL_MS : Nat := 100

/-- `HEARTBEAT_INTERVAL_MS`: heartbeat cadence while connected. -/
def HEARTBEAT_INTERVAL_MS : Nat := 5000

/-- `WIFI_RECONNECT_TIMEOUT`: hard WiFi reconnection timeout (30 s). -/
def WIFI_RECONNECT_TIMEOUT : Nat := 30000

/-- `IR_DEBOUNCE_MS`: settle window of the KY-033 lid-sensor debouncer. -/
def IR_DEBOUNCE_MS : Nat := 50

/-- `RADAR_DEBOUNCE_MS`: hysteresis window for clearing radar presence. -/
def RADAR_DEBOUNCE_MS : Nat := 3000

/-- The `SystemState` enum of the firmware. -/
inductive SystemState where
  | idle
  | preparing
  | focusing
  | paused
  | violation
  | error
deriving DecidableEq, Repr

/-- The global mutable state of the firmware that the core logic touches:
session state-machine variables, the interrupt-shared lid-sensor cell, the
radar debounce state, and the connection-supervision variables. -/
structure Sys where
  currentState : SystemState
  previousState : SystemState
  stateEnterTime : Nat
  focusStartTime : Nat
  totalFocusTime : Nat
  irTriggered : Bool
  irTriggerTime : Nat
  boxOpen : Bool
  radarPresence : Bool
  radarLowStartTime : Nat
  isConnectedToBackend : Bool
  wifiReconnecting : Bool
  wifiReconnectStart : Nat
  lastSensorRead : Nat
  lastHeartbeat : Nat
deriving DecidableEq, Repr

/-- Messages emitted on the WebSocket link, keeping the fields the session
logic determines (hardware id, firmware version and the auxiliary mic / NFC
readings are constants or external inputs and are dropped). -/
inductive Msg where
  | sensorData (state : SystemState) (boxOpen radarPresence : Bool) (timestamp : Nat)
  | stateChange (prev cur : SystemState) (timestamp : Nat) (totalFocus : Option Nat)
  | heartbeat (state : SystemState) (timestamp : Nat)
  | pong
  | hardwareConnect
deriving DecidableEq, Repr

/-- An inbound WebSocket text payload, as seen by `handleCommand` after the
external JSON codec: either malformed JSON (`deserializeJson` fails), a JSON
document without a `command` field, or a `command` token string. -/
inductive Payload where
  | malformed
  | noCommand
  | cmd (token : String)
deriving DecidableEq, Repr

/-- `sendSensorData()`: emit the periodic telemetry message, suppressed
unless connected to the backend. -/
def sendSensorData (s : Sys) (now : Nat) : List Msg :=
  if s.isConnectedToBackend then
    [Msg.sensorData s.currentState s.boxOpen s.radarPresence now]
  else []

/-- `sendStateChange()`: emit the state-change notification, suppressed
unless connected; the `total_focus_time_ms` field is attached only for
transitions into VIOLATION, PAUSED or IDLE. -/
def sendStateChange (s : Sys) (now : Nat) : List Msg :=
  if s.isConnectedToBackend then
    [Msg.stateChange s.previousState s.currentState now
      (if s.currentState = .violation ∨ s.currentState = .paused ∨ s.currentState = .idle
       then some s.totalFocusTime else none)]
  else []

/-- `sendHeartbeat()`: emit the heartbeat message (the caller guards it by
the connection flag). -/
def sendHeartbeat (s : Sys) (now : Nat) : List Msg :=
  [Msg.heartbeat s.currentState now]

/-- `enterState()`: the single transition procedure of the session state
machine.  A request for the current state returns immediately; otherwise it
records `previousState`, `currentState` and `stateEnterTime`, runs the entry
action of the new state, and notifies the backend. -/
def enterState (s : Sys) (now : Nat) (newState : SystemState) : Sys × List Msg :=
  if newState = s.currentState then (s, [])
  else
    let s1 : Sys :=
      { s with previousState := s.currentState, currentState := newState,
               stateEnterTime := now }
    let s2 : Sys :=
      match newState with
      | .idle => { s1 with totalFocusTime := 0 }
      | .focusing => { s1 with focusStartTime := now }
      | .paused =>
          if s1.previousState = .focusing then
            { s1 with totalFocusTime := uadd s1.totalFocusTime (usub now s1.focusStartTime) }
          else s1
      | .violation =>
          if s1.previousState = .focusing then
            { s1 with totalFocusTime := uadd s1.totalFocusTime (usub now s1.focusStartTime) }
          else s1
      | _ => s1
    (s2, sendStateChange s2 now)

/-- `handleCommand()`: decode an inbound payload and drive the state
machine.  Malformed payloads and payloads without a `command` field return
with no effect; unknown tokens are logged and otherwise ignored. -/
def handleCommand (s : Sys) (now : Nat) (p : Payload) : Sys × List Msg :=
  match p with
  | .malformed => (s, [])
  | .noCommand => (s, [])
  | .cmd c =>
    if c = "START" then
      if s.currentState = .idle then enterState s now .preparing else (s, [])
    else if c = "STOP" ∨ c = "CANCEL" then
      enterState s now .idle
    else if c = "PAUSE" then
      if s.currentState = .focusing then enterState s now .paused else (s, [])
    else if c = "RESUME" then
      if s.currentState = .paused then
        let r := enterState s now .focusing
        ({ r.1 with focusStartTime := now }, r.2)
      else (s, [])
    else if c = "ACKNOWLEDGE" then
      if s.currentState = .violation then enterState s now .idle else (s, [])
    else if c = "PING" then
      (s, [Msg.pong])
    else
      (s, [])

/-- `irISR()`: the KY-033 interrupt service routine.  It only writes the
pending flag and the edge timestamp. -/
def irISR (s : Sys) (now : Nat) : Sys :=
  { s with irTriggered := true, irTriggerTime := now }

/-- `processIRInterrupt()`: poll-loop half of the lid debouncer.  A pending
edge is consumed only once `IR_DEBOUNCE_MS` have elapsed since the most
recent edge; the line is then re-read (`rawLevel`) and, if the stable level
changed to open while focusing, the machine enters VIOLATION. -/
def processIRInterrupt (s : Sys) (now : Nat) (rawLevel : Bool) : Sys × List Msg :=
  if !s.irTriggered then (s, [])
  else if usub now s.irTriggerTime < IR_DEBOUNCE_MS then (s, [])
  else
    let s1 : Sys := { s with irTriggered := false }
    if rawLevel ≠ s1.boxOpen then
      let s2 : Sys := { s1 with boxOpen := rawLevel }
      if rawLevel = true ∧ s2.currentState = .focusing then
        enterState s2 now .violation
      else (s2, [])
    else (s1, [])

/-- The radar debounce block of `readRadar()`, with the raw reading
abstracted into a parameter: presence is asserted immediately on a true
reading; a false reading starts (or continues) a `RADAR_DEBOUNCE_MS`
countdown after which presence is cleared. -/
def radarFilter (s : Sys) (now : Nat) (rawReading : Bool) : Sys :=
  if rawReading then
    { s with radarPresence := true, radarLowStartTime := 0 }
  else
    let s1 : Sys :=
      if s.radarPresence = true ∧ s.radarLowStartTime = 0 then
        { s with radarLowStartTime := now }
      else s
    if s1.radarLowStartTime > 0 ∧ usub now s1.radarLowStartTime ≥ RADAR_DEBOUNCE_MS then
      { s1 with radarPresence := false }
    else s1

/-- `readRadar()` as shipped: the raw reading path is a stub that holds the
previous filtered value (`bool rawReading = radarPresence;`). -/
def readRadar (s : Sys) (now : Nat) : Sys :=
  radarFilter s now s.radarPresence

/-- `updateStateMachine()`: per-tick evaluation; only PREPARING has an
automatic transition (into FOCUSING after the grace period). -/
def updateStateMachine (s : Sys) (now : Nat) : Sys × List Msg :=
  match s.currentState with
  | .preparing =>
      if usub now s.stateEnterTime ≥ PREPARE_DURATION_MS then
        enterState s now .focusing
      else (s, [])
  | _ => (s, [])

/-- `handleWiFiReconnect()`: on the first tick with WiFi down, mark the
reconnection attempt and drop the backend flag; on later down ticks, request
a full device restart (`ESP.restart()`, the returned flag) once more than
`WIFI_RECONNECT_TIMEOUT` have elapsed since the attempt started. -/
def handleWiFiReconnect (s : Sys) (now : Nat) : Sys × Bool :=
  if !s.wifiReconnecting then
    ({ s with wifiReconnecting := true, wifiReconnectStart := now,
              isConnectedToBackend := false }, false)
  else if usub now s.wifiReconnectStart > WIFI_RECONNECT_TIMEOUT then
    (s, true)
  else (s, false)

/-- `webSocketEvent(WStype_CONNECTED)`: mark the backend reachable and send
the hardware registration message. -/
def wsConnect (s : Sys) : Sys × List Msg :=
  ({ s with isConnectedToBackend := true }, [Msg.hardwareConnect])

/-- `webSocketEvent(WStype_DISCONNECTED)`: mark the backend unreachable. -/
def wsDisconnect (s : Sys) : Sys :=
  { s with isConnectedToBackend := false }

/-- The external inputs consumed by one iteration of `loop()`. -/
structure TickIn where
  now : Nat
  wifiUp : Bool
  inbound : Option Payload
  rawLevel : Bool
  radarRaw : Bool
deriving DecidableEq, Repr

/-- One iteration of `loop()`: WebSocket servicing (which may deliver an
inbound payload), the WiFi check with early return, the IR interrupt
processing, the 10 Hz sensor read and telemetry send, the state-machine
update, and the guarded heartbeat.  The third component of the result is
the `ESP.restart()` request.  LCD updates render text only and are
omitted. -/
def loopTick (s : Sys) (i : TickIn) : Sys × List Msg × Bool :=
  let c :=
    match i.inbound with
    | some p => handleCommand s i.now p
    | none => (s, ([] : List Msg))
  let s0 := c.1
  if !i.wifiUp then
    let r := handleWiFiReconnect s0 i.now
    (r.1, c.2, r.2)
  else
    let s1 : Sys :=
      if s0.wifiReconnecting then { s0 with wifiReconnecting := false } else s0
    let r1 := processIRInterrupt s1 i.now i.rawLevel
    let s2 := r1.1
    let r2 :=
      if usub i.now s2.lastSensorRead ≥ SENSOR_INTERVAL_MS then
        let s3 := readRadar s2 i.now
        ({ s3 with lastSensorRead := i.now }, sendSensorData s3 i.now)
      else (s2, ([] : List Msg))
    let s4 := r2.1
    let r3 := updateStateMachine s4 i.now
    let s5 := r3.1
    let r4 :=
      if s5.isConnectedToBackend = true ∧ usub i.now s5.lastHeartbeat ≥ HEARTBEAT_INTERVAL_MS then
        ({ s5 with lastHeartbeat := i.now }, sendHeartbeat s5 i.now)
      else (s5, ([] : List Msg))
    (r4.1, c.2 ++ r1.2 ++ r2.2 ++ r3.2 ++ r4.2, false)

/-- The firmware's state after `setup()`: all session and supervision
variables at their C initialisers; the initial lid level `b` comes from the
first `digitalRead` of the sensor line. -/
def initSys (b : Bool) : Sys :=
  { currentState := .idle
    previousState := .idle
    stateEnterTime := 0
    focusStartTime := 0
    totalFocusTime := 0
    irTriggered := false
    irTriggerTime := 0
    boxOpen := b
    radarPresence := false
    radarLowStartTime := 0
    isConnectedToBackend := false
    wifiReconnecting := false
    wifiReconnectStart := 0
    lastSensorRead := 0
    lastHeartbeat := 0 }

/-- States reachable from startup under any interleaving of loop
iterations, IR interrupts, WebSocket session events and inbound
commands. -/
inductive Reachable : Sys → Prop where
  | init (b : Bool) : Reachable (initSys b)
  | tick {s : Sys} (i : TickIn) : Reachable s → Reachable (loopTick s i).1
  | isr {s : Sys} (now : Nat) : Reachable s → Reachable (irISR s now)
  | connect {s : Sys} : Reachable s → Reachable (wsConnect s).1
  | disconnect {s : Sys} : Reachable s → Reachable (wsDisconnect s)
  | command {s : Sys} (now : Nat) (p : Payload) :
      Reachable s → Reachable (handleCommand s now p).1

/-- An event on the lid-sensor line: a raw edge (the line settles at
`level` and the ISR fires) or a poll-loop call to `processIRInterrupt`. -/
inductive IREv where
  | edge (t : Nat) (level : Bool)
  | poll (t : Nat)
deriving DecidableEq, Repr

/-- The timestamp of a lid-sensor event. -/
def IREv.time : IREv → Nat
  | .edge t _ => t
  | .poll t => t

/-- Whether a lid-sensor event is a raw edge. -/
def IREv.isEdge : IREv → Bool
  | .edge _ _ => true
  | .poll _ => false

/-- One lid-sensor event applied to the pair (firmware state, raw line
level). -/
def irStep (p : Sys × Bool) (e : IREv) : Sys × Bool :=
  match e with
  | .edge t lvl => (irISR p.1 t, lvl)
  | .poll t => ((processIRInterrupt p.1 t p.2).1, p.2)

/-- Run a list of lid-sensor events, counting (entries into VIOLATION,
stable-level changes of `boxOpen`). -/
def irRun (p : Sys × Bool) : List IREv → (Sys × Bool) × Nat × Nat
  | [] => (p, 0, 0)
  | e :: rest =>
    let q := irStep p e
    let r := irRun q rest
    (r.1,
     (if p.1.currentState ≠ .violation ∧ q.1.currentState = .violation then 1 else 0) + r.2.1,
     (if q.1.boxOpen ≠ p.1.boxOpen then 1 else 0) + r.2.2)

/-- The raw line level after the last edge of an event list (starting from
level `l`). -/
def lastLevel (l : Bool) : List IREv → Bool
  | [] => l
  | .edge _ lvl :: rest => lastLevel lvl rest
  | .poll _ :: rest => lastLevel l rest

/-- Run a list of loop iterations, halting when a restart is requested; the
second component counts restart requests from this boot (the device reboots
when one fires, so the run ends there). -/
def runTicks (s : Sys) : List TickIn → Sys × Nat
  | [] => (s, 0)
  | i :: rest =>
    let r := loopTick s i
    if r.2.2 then (r.1, 1)
    else runTicks r.1 rest

/-- A loop iteration with WiFi down at time `t` (inputs other than the WiFi
status are irrelevant on that path). -/
def mkDown (t : Nat) : TickIn :=
  { now := t, wifiUp := false, inbound := none, rawLevel := false, radarRaw := false }

/-- Run the radar filter over a list of (timestamp, raw reading) pairs. -/
def radarRun (s : Sys) : List (Nat × Bool) → Sys
  | [] => s
  | (t, r) :: rest => radarRun (radarFilter s t r) rest

/-- The timestamp of the last read in a list, `d` if the list is empty. -/
def lastT (d : Nat) : List (Nat × Bool) → Nat
  | [] => d
  | p :: rest => lastT p.1 rest

/-- The message kinds covered by the connection-gating invariant:
telemetry, state-change notifications and heartbeats. -/
def isTelemetry : Msg → Bool
  | .sensorData _ _ _ _ => true
  | .stateChange _ _ _ _ => true
  | .heartbeat _ _ => true
  | _ => false

/-- Modelled from the spec's transition table for Focusing --STOP/CANCEL-->
Idle: "totalFocusTimeMs += now-focusStartedAt, then reset to 0".  The
increment is immediately overwritten by the reset, so the composite effect
on the focus-time counter is the constant 0. -/
def specFocusingStopTotal (total focusStart now : Nat) : Nat :=
  let _afterIncrement := uadd total (usub now focusStart)
  0

/-! Helper lemmas about the wrapping arithmetic and about which state
fields each step function can touch. -/

theorem usub_eq {a b : Nat} (hba : b ≤ a) (haW : a < W) : usub a b = a - b := by
  unfold usub
  have h1 : a + W - b = (a - b) + W := by omega
  rw [h1, Nat.add_mod_right]
  exact Nat.mod_eq_of_lt (lt_of_le_of_lt (Nat.sub_le a b) haW)

theorem uadd_eq {a b : Nat} (h : a + b < W) : uadd a b = a + b :=
  Nat.mod_eq_of_lt h

theorem enterState_fields (s : Sys) (now : Nat) (x : SystemState) :
    (enterState s now x).1.isConnectedToBackend = s.isConnectedToBackend ∧
    (enterState s now x).1.wifiReconnecting = s.wifiReconnecting ∧
    (enterState s now x).1.wifiReconnectStart = s.wifiReconnectStart ∧
    (enterState s now x).1.lastSensorRead = s.lastSensorRead ∧
    (enterState s now x).1.lastHeartbeat = s.lastHeartbeat ∧
    (enterState s now x).1.irTriggered = s.irTriggered ∧
    (enterState s now x).1.irTriggerTime = s.irTriggerTime ∧
    (enterState s now x).1.boxOpen = s.boxOpen ∧
    (enterState s now x).1.radarPresence = s.radarPresence ∧
    (enterState s now x).1.radarLowStartTime = s.radarLowStartTime := by
  unfold enterState
  split
  · simp
  · cases x <;> simp <;> split <;> simp

theorem enterState_currentState (s : Sys) (now : Nat) (x : SystemState) :
    (enterState s now x).1.currentState = x ∨
    (enterState s now x).1.currentState = s.currentState := by
  unfold enterState
  split
  · right; rfl
  · left; cases x <;> simp <;> split <;> simp

theorem enterState_msgs_disconnected (s : Sys) (now : Nat) (x : SystemState)
    (h : s.isConnectedToBackend = false) : (enterState s now x).2 = [] := by
  unfold enterState sendStateChange
  split
  · rfl
  · cases x <;> simp [h] <;> split <;> simp [h]

theorem enterState_isConnected (s : Sys) (now : Nat) (x : SystemState) :
    (enterState s now x).1.isConnectedToBackend = s.isConnectedToBackend :=
  (enterState_fields s now x).1

theorem enterState_wifiReconnecting (s : Sys) (now : Nat) (x : SystemState) :
    (enterState s now x).1.wifiReconnecting = s.wifiReconnecting :=
  (enterState_fields s now x).2.1

theorem enterState_boxOpen (s : Sys) (now : Nat) (x : SystemState) :
    (enterState s now x).1.boxOpen = s.boxOpen :=
  (enterState_fields s now x).2.2.2.2.2.2.2.1

theorem enterState_irTriggered (s : Sys) (now : Nat) (x : SystemState) :
    (enterState s now x).1.irTriggered = s.irTriggered :=
  (enterState_fields s now x).2.2.2.2.2.1

theorem handleCommand_isConnected (s : Sys) (now : Nat) (p : Payload) :
    (handleCommand s now p).1.isConnectedToBackend = s.isConnectedToBackend := by
  cases p with
  | malformed => rfl
  | noCommand => rfl
  | cmd c =>
    unfold handleCommand
    try dsimp only
    split_ifs <;> simp [enterState_isConnected]

theorem handleCommand_wifiReconnecting (s : Sys) (now : Nat) (p : Payload) :
    (handleCommand s now p).1.wifiReconnecting = s.wifiReconnecting := by
  cases p with
  | malformed => rfl
  | noCommand => rfl
  | cmd c =>
    unfold handleCommand
    try dsimp only
    split_ifs <;> simp [enterState_wifiReconnecting]

theorem processIRInterrupt_isConnected (s : Sys) (now : Nat) (rawLevel : Bool) :
    (processIRInterrupt s now rawLevel).1.isConnectedToBackend = s.isConnectedToBackend := by
  unfold processIRInterrupt
  try dsimp only
  split_ifs <;> simp [enterState_isConnected]

theorem processIRInterrupt_wifiReconnecting (s : Sys) (now : Nat) (rawLevel : Bool) :
    (processIRInterrupt s now rawLevel).1.wifiReconnecting = s.wifiReconnecting := by
  unfold processIRInterrupt
  try dsimp only
  split_ifs <;> simp [enterState_wifiReconnecting]

theorem radarFilter_isConnected (s : Sys) (now : Nat) (r : Bool) :
    (radarFilter s now r).isConnectedToBackend = s.isConnectedToBackend := by
  unfold radarFilter
  try dsimp only
  split_ifs <;> simp

theorem radarFilter_wifiReconnecting (s : Sys) (now : Nat) (r : Bool) :
    (radarFilter s now r).wifiReconnecting = s.wifiReconnecting := by
  unfold radarFilter
  try dsimp only
  split_ifs <;> simp

theorem readRadar_isConnected (s : Sys) (now : Nat) :
    (readRadar s now).isConnectedToBackend = s.isConnectedToBackend :=
  radarFilter_isConnected s now s.radarPresence

theorem readRadar_wifiReconnecting (s : Sys) (now : Nat) :
    (readRadar s now).wifiReconnecting = s.wifiReconnecting :=
  radarFilter_wifiReconnecting s now s.radarPresence

theorem updateStateMachine_isConnected (s : Sys) (now : Nat) :
    (updateStateMachine s now).1.isConnectedToBackend = s.isConnectedToBackend := by
  unfold updateStateMachine
  split <;> try rfl
  try dsimp only
  split_ifs <;> simp [enterState_isConnected]

theorem updateStateMachine_wifiReconnecting (s : Sys) (now : Nat) :
    (updateStateMachine s now).1.wifiReconnecting = s.wifiReconnecting := by
  unfold updateStateMachine
  split <;> try rfl
  try dsimp only
  split_ifs <;> simp [enterState_wifiReconnecting]

theorem sendSensorData_disconnected (s : Sys) (now : Nat)
    (h : s.isConnectedToBackend = false) : sendSensorData s now = [] := by
  simp [sendSensorData, h]

theorem handleCommand_msgs_disconnected (s : Sys) (now : Nat) (p : Payload)
    (h : s.isConnectedToBackend = false) :
    (handleCommand s now p).2.filter isTelemetry = [] := by
  cases p with
  | malformed => rfl
  | noCommand => rfl
  | cmd c =>
    unfold handleCommand
    try dsimp only
    split_ifs <;> simp [enterState_msgs_disconnected _ _ _ h, isTelemetry]

theorem processIRInterrupt_msgs_disconnected (s : Sys) (now : Nat) (rawLevel : Bool)
    (h : s.isConnectedToBackend = false) :
    (processIRInterrupt s now rawLevel).2.filter isTelemetry = [] := by
  unfold processIRInterrupt
  try dsimp only
  split_ifs <;> simp [enterState_msgs_disconnected, h]

theorem updateStateMachine_msgs_disconnected (s : Sys) (now : Nat)
    (h : s.isConnectedToBackend = false) :
    (updateStateMachine s now).2.filter isTelemetry = [] := by
  unfold updateStateMachine
  split <;> try rfl
  try dsimp only
  split_ifs <;> simp [enterState_msgs_disconnected, h]

/-- C4: requesting a transition into the current state is a strict no-op:
no timer variable (`stateEnterTime`, `focusStartTime`, `totalFocusTime`)
changes, `previousState` is untouched, and no state-change event is
emitted. -/
theorem self_transition_noop (s : Sys) (now : Nat) :
    enterState s now s.currentState = (s, []) := by
  unfold enterState
  simp

/-- C1: a STOP or CANCEL command received while Focusing moves the machine
to Idle, and the effect on `totalFocusTime` is exactly the spec's
increment-then-reset composite (which collapses to 0): the counter reads 0
in the post-state. -/
theorem stop_from_focusing_resets_total (s : Sys) (now : Nat)
    (h : s.currentState = .focusing) :
    ((handleCommand s now (.cmd "STOP")).1.currentState = .idle ∧
      (handleCommand s now (.cmd "STOP")).1.totalFocusTime =
        specFocusingStopTotal s.totalFocusTime s.focusStartTime now) ∧
    ((handleCommand s now (.cmd "CANCEL")).1.currentState = .idle ∧
      (handleCommand s now (.cmd "CANCEL")).1.totalFocusTime =
        specFocusingStopTotal s.totalFocusTime s.focusStartTime now) := by
  unfold handleCommand enterState specFocusingStopTotal
  simp [h]

theorem stop_from_focusing_resets_total_witness :
    ((handleCommand { initSys false with currentState := .focusing } 500
        (.cmd "STOP")).1.currentState = .idle ∧
      (handleCommand { initSys false with currentState := .focusing } 500
        (.cmd "STOP")).1.totalFocusTime =
        specFocusingStopTotal
          ({ initSys false with currentState := .focusing } : Sys).totalFocusTime
          ({ initSys false with currentState := .focusing } : Sys).focusStartTime 500) ∧
    ((handleCommand { initSys false with currentState := .focusing } 500
        (.cmd "CANCEL")).1.currentState = .idle ∧
      (handleCommand { initSys false with currentState := .focusing } 500
        (.cmd "CANCEL")).1.totalFocusTime =
        specFocusingStopTotal
          ({ initSys false with currentState := .focusing } : Sys).totalFocusTime
          ({ initSys false with currentState := .focusing } : Sys).focusStartTime 500) :=
  stop_from_focusing_resets_total { initSys false with currentState := .focusing } 500 rfl

/-- C6: an inbound payload that is malformed JSON, lacks a `command` field,
or carries a token outside the command vocabulary leaves the whole firmware
state (session variables included) unchanged and emits nothing on the
link. -/
theorem invalid_command_noop (s : Sys) (now : Nat) (c : String)
    (h : c ∉ (["START", "STOP", "CANCEL", "PAUSE", "RESUME", "ACKNOWLEDGE",
               "PING"] : List String)) :
    handleCommand s now .malformed = (s, []) ∧
    handleCommand s now .noCommand = (s, []) ∧
    handleCommand s now (.cmd c) = (s, []) := by
  simp only [List.mem_cons, List.not_mem_nil, or_false, not_or] at h
  obtain ⟨h1, h2, h3, h4, h5, h6, h7⟩ := h
  unfold handleCommand
  simp [h1, h2, h3, h4, h5, h6, h7]

theorem invalid_command_noop_witness :
    ("FOO" ∉ (["START", "STOP", "CANCEL", "PAUSE", "RESUME", "ACKNOWLEDGE",
               "PING"] : List String)) ∧
    handleCommand (initSys false) 0 (.cmd "FOO") = (initSys false, []) :=
  ⟨by decide, (invalid_command_noop (initSys false) 0 "FOO" (by decide)).2.2⟩

/-- C10: every state-change message emitted for a transition into Idle
carries `total_focus_time_ms = 0`, whatever the prior history: the Idle
entry action zeroes `totalFocusTime` before the notification is built. -/
theorem idle_state_change_carries_zero (s : Sys) (now : Nat) (x : SystemState)
    (p : SystemState) (t : Nat) (tf : Option Nat)
    (hm : Msg.stateChange p .idle t tf ∈ (enterState s now x).2) :
    tf = some 0 := by
  unfold enterState sendStateChange at hm
  split at hm
  · simp at hm
  · cases x <;> simp at hm <;>
      first
        | exact hm.2.2.2
        | (split at hm <;> simp at hm)

theorem idle_state_change_carries_zero_witness :
    (Msg.stateChange .focusing .idle 900 (some 0) ∈
      (enterState
        { initSys false with currentState := .focusing,
                             isConnectedToBackend := true,
                             totalFocusTime := 77 } 900 .idle).2) ∧
    (some 0 : Option Nat) = some 0 :=
  ⟨by decide,
   idle_state_change_carries_zero
     { initSys false with currentState := .focusing,
                          isConnectedToBackend := true, totalFocusTime := 77 }
     900 .idle .focusing 900 (some 0) (by decide)⟩

/-- C5: while the backend is not connected (`isConnectedToBackend = false`),
a whole poll tick emits no `sensor_data`, no `state_change` and no
`heartbeat` message, and any state transition taken emits nothing. -/
theorem disconnected_suppresses_telemetry (s : Sys) (i : TickIn) (now : Nat) (x : SystemState)
    (h : s.isConnectedToBackend = false) :
    (loopTick s i).2.1.filter isTelemetry = [] ∧ (enterState s now x).2 = [] := by
  refine ⟨?_, enterState_msgs_disconnected s now x h⟩
  obtain ⟨tnow, up, inb, raw, rraw⟩ := i
  unfold loopTick
  cases inb <;> try dsimp only
  all_goals split_ifs
  all_goals
    simp_all [List.filter_append, handleCommand_msgs_disconnected,
      processIRInterrupt_msgs_disconnected, updateStateMachine_msgs_disconnected,
      sendSensorData_disconnected, handleCommand_isConnected,
      processIRInterrupt_isConnected, readRadar_isConnected,
      updateStateMachine_isConnected]

theorem disconnected_suppresses_telemetry_witness :
    (loopTick (initSys false)
        { now := 1000, wifiUp := true, inbound := some (.cmd "START"),
          rawLevel := false, radarRaw := false }).2.1.filter isTelemetry = [] ∧
    (enterState (initSys false) 5 .preparing).2 = [] :=
  disconnected_suppresses_telemetry (initSys false)
    { now := 1000, wifiUp := true, inbound := some (.cmd "START"),
      rawLevel := false, radarRaw := false } 5 .preparing rfl

/-- C3: for the sequence Focusing (started at `f1`) --PAUSE at `p1`-->
Paused --RESUME at `r`--> Focusing --lid-open violation at `v`--> Violation,
`totalFocusTime` on entering Violation is `(p1 - f1) + (v - r)`, the sum of
the two Focusing interval durations, independent of the Paused duration
`r - p1`. -/
theorem pause_resume_violation_focus_sum
    (s0 : Sys) (f1 p1 r e v : Nat)
    (h0 : s0.currentState = .focusing) (hf : s0.focusStartTime = f1)
    (ht : s0.totalFocusTime = 0) (hb : s0.boxOpen = false)
    (h1 : f1 ≤ p1) (h2 : p1 ≤ r) (h3 : r ≤ e) (h4 : e + IR_DEBOUNCE_MS ≤ v)
    (h5 : v < W) :
    (processIRInterrupt
        (irISR ((handleCommand ((handleCommand s0 p1 (.cmd "PAUSE")).1) r
            (.cmd "RESUME")).1) e) v true).1.currentState = .violation ∧
    (processIRInterrupt
        (irISR ((handleCommand ((handleCommand s0 p1 (.cmd "PAUSE")).1) r
            (.cmd "RESUME")).1) e) v true).1.totalFocusTime = (p1 - f1) + (v - r) := by
  have hu1 : usub p1 f1 = p1 - f1 := usub_eq h1 (by omega)
  have hu2 : usub v r = v - r := usub_eq (by omega) h5
  have hu3 : usub v e = v - e := usub_eq (by omega) h5
  have hge : ¬ (usub v e < IR_DEBOUNCE_MS) := by
    rw [hu3]
    have hd : IR_DEBOUNCE_MS = 50 := rfl
    omega
  have ha1 : uadd 0 (p1 - f1) = p1 - f1 := by
    have := uadd_eq (a := 0) (b := p1 - f1) (by omega)
    omega
  have ha2 : uadd (p1 - f1) (v - r) = (p1 - f1) + (v - r) := uadd_eq (by omega)
  have hs1 : (handleCommand s0 p1 (.cmd "PAUSE")).1 =
      { s0 with previousState := .focusing, currentState := .paused,
                stateEnterTime := p1, totalFocusTime := p1 - f1 } := by
    unfold handleCommand enterState
    simp [h0, hf, ht, hu1, ha1]
  rw [hs1]
  unfold handleCommand irISR processIRInterrupt
  simp [enterState, hb, hge, hu2, ha2]

theorem pause_resume_violation_focus_sum_witness :
    (processIRInterrupt
        (irISR ((handleCommand
            ((handleCommand
              { initSys false with currentState := .focusing, focusStartTime := 1000 }
              2000 (.cmd "PAUSE")).1) 5000
            (.cmd "RESUME")).1) 6000) 7000 true).1.currentState = .violation ∧
    (processIRInterrupt
        (irISR ((handleCommand
            ((handleCommand
              { initSys false with currentState := .focusing, focusStartTime := 1000 }
              2000 (.cmd "PAUSE")).1) 5000
            (.cmd "RESUME")).1) 6000) 7000 true).1.totalFocusTime =
      (2000 - 1000) + (7000 - 5000) :=
  pause_resume_violation_focus_sum
    { initSys false with currentState := .focusing, focusStartTime := 1000 }
    1000 2000 5000 6000 7000 rfl rfl rfl rfl (by decide) (by decide) (by decide)
    (by decide) (by decide)

theorem enterState_ne_error (s : Sys) (now : Nat) (x : SystemState)
    (hx : x ≠ .error) (hs : s.currentState ≠ .error) :
    (enterState s now x).1.currentState ≠ .error := by
  rcases enterState_currentState s now x with h | h <;> rw [h] <;> assumption

theorem handleCommand_ne_error (s : Sys) (now : Nat) (p : Payload)
    (hs : s.currentState ≠ .error) :
    (handleCommand s now p).1.currentState ≠ .error := by
  cases p with
  | malformed => exact hs
  | noCommand => exact hs
  | cmd c =>
    unfold handleCommand
    try dsimp only
    split_ifs <;>
      first
        | exact hs
        | exact enterState_ne_error _ _ _ (by simp) hs

theorem processIRInterrupt_ne_error (s : Sys) (now : Nat) (rawLevel : Bool)
    (hs : s.currentState ≠ .error) :
    (processIRInterrupt s now rawLevel).1.currentState ≠ .error := by
  unfold processIRInterrupt
  try dsimp only
  split_ifs <;>
    first
      | exact hs
      | exact enterState_ne_error _ _ _ (by simp) hs

theorem updateStateMachine_ne_error (s : Sys) (now : Nat)
    (hs : s.currentState ≠ .error) :
    (updateStateMachine s now).1.currentState ≠ .error := by
  unfold updateStateMachine
  split <;> try exact hs
  split_ifs <;>
    first
      | exact hs
      | exact enterState_ne_error _ _ _ (by simp) hs

theorem radarFilter_currentState (s : Sys) (now : Nat) (r : Bool) :
    (radarFilter s now r).currentState = s.currentState := by
  unfold radarFilter
  try dsimp only
  split_ifs <;> simp

theorem readRadar_currentState (s : Sys) (now : Nat) :
    (readRadar s now).currentState = s.currentState :=
  radarFilter_currentState s now s.radarPresence

theorem handleWiFiReconnect_currentState (s : Sys) (now : Nat) :
    (handleWiFiReconnect s now).1.currentState = s.currentState := by
  unfold handleWiFiReconnect
  split_ifs <;> rfl

theorem loopTick_ne_error (s : Sys) (i : TickIn)
    (hs : s.currentState ≠ .error) :
    (loopTick s i).1.currentState ≠ .error := by
  obtain ⟨tnow, up, inb, raw, rraw⟩ := i
  unfold loopTick
  have h0 : ∀ p : Payload, (handleCommand s tnow p).1.currentState ≠ .error :=
    fun p => handleCommand_ne_error s tnow p hs
  cases inb <;> (try dsimp only) <;> split_ifs <;>
    repeat
      first
        | assumption
        | exact h0 _
        | rw [handleWiFiReconnect_currentState]
        | rw [readRadar_currentState]
        | apply updateStateMachine_ne_error
        | apply processIRInterrupt_ne_error

/-- C9: the ERROR state is unreachable: under any interleaving of loop
iterations (with arbitrary inputs), IR interrupts, WebSocket session events
and inbound commands, no reachable state has `currentState = STATE_ERROR`;
no call site of `enterState` targets it. -/
theorem error_state_unreachable (s : Sys) (h : Reachable s) :
    s.currentState ≠ .error := by
  induction h with
  | init b => simp [initSys]
  | tick i _ ih => exact loopTick_ne_error _ i ih
  | isr now _ ih => exact ih
  | connect _ ih => exact ih
  | disconnect _ ih => exact ih
  | command now p _ ih => exact handleCommand_ne_error _ now p ih

theorem error_state_unreachable_witness :
    (initSys false).currentState ≠ SystemState.error :=
  error_state_unreachable (initSys false) (Reachable.init false)

theorem loopTick_down (s : Sys) (t : Nat) :
    loopTick s (mkDown t) =
      ((handleWiFiReconnect s t).1, [], (handleWiFiReconnect s t).2) := by
  unfold loopTick mkDown
  rfl

theorem runTicks_restart_le_one (ticks : List TickIn) :
    ∀ s : Sys, (runTicks s ticks).2 ≤ 1 := by
  induction ticks with
  | nil => intro s; simp [runTicks]
  | cons i rest ih =>
    intro s
    unfold runTicks
    dsimp only
    split
    · simp
    · exact ih _

theorem runDown_passthrough (d : Nat) :
    ∀ (ts : List Nat) (s : Sys) (rest : List TickIn),
      s.wifiReconnecting = true → s.wifiReconnectStart = d →
      (∀ t ∈ ts, d ≤ t ∧ t < W ∧ t ≤ d + WIFI_RECONNECT_TIMEOUT) →
      runTicks s (ts.map mkDown ++ rest) = runTicks s rest := by
  intro ts
  induction ts with
  | nil => intro s rest _ _ _; rfl
  | cons t ts ih =>
    intro s rest hrec hstart hts
    obtain ⟨ht1, ht2, ht3⟩ := hts t (List.mem_cons_self t ts)
    have hu : usub t d = t - d := usub_eq ht1 ht2
    have hT : WIFI_RECONNECT_TIMEOUT = 30000 := rfl
    have hcond : ¬ (usub t s.wifiReconnectStart > WIFI_RECONNECT_TIMEOUT) := by
      rw [hstart, hu, hT]
      rw [hT] at ht3
      omega
    simp only [List.map_cons, List.cons_append]
    simp only [runTicks]
    rw [loopTick_down]
    unfold handleWiFiReconnect
    simp only [hrec, Bool.not_true, Bool.false_eq_true, if_false, hcond, ite_false]
    exact ih s rest hrec hstart (fun t' h' => hts t' (List.mem_cons_of_mem t h'))

theorem runDown_exceeds (d : Nat) :
    ∀ (ts : List Nat) (s : Sys),
      s.wifiReconnecting = true → s.wifiReconnectStart = d →
      (∀ t ∈ ts, d ≤ t ∧ t < W) →
      (∃ t ∈ ts, t > d + WIFI_RECONNECT_TIMEOUT) →
      (runTicks s (ts.map mkDown)).2 = 1 := by
  intro ts
  induction ts with
  | nil => intro s _ _ _ hex; simp at hex
  | cons t ts ih =>
    intro s hrec hstart hts hex
    obtain ⟨ht1, ht2⟩ := hts t (List.mem_cons_self t ts)
    have hu : usub t d = t - d := usub_eq ht1 ht2
    have hT : WIFI_RECONNECT_TIMEOUT = 30000 := rfl
    by_cases hgt : t > d + WIFI_RECONNECT_TIMEOUT
    · have hcond : usub t s.wifiReconnectStart > WIFI_RECONNECT_TIMEOUT := by
        rw [hstart, hu, hT]
        rw [hT] at hgt
        omega
      simp only [List.map_cons]
      unfold runTicks
      rw [loopTick_down]
      unfold handleWiFiReconnect
      simp [hrec, hcond]
    · have hcond : ¬ (usub t s.wifiReconnectStart > WIFI_RECONNECT_TIMEOUT) := by
        rw [hstart, hu, hT]
        rw [hT] at hgt
        omega
      simp only [List.map_cons]
      unfold runTicks
      rw [loopTick_down]
      unfold handleWiFiReconnect
      simp only [hrec, Bool.not_true, Bool.false_eq_true, if_false, hcond, ite_false]
      apply ih s hrec hstart (fun t' h' => hts t' (List.mem_cons_of_mem t h'))
      rcases hex with ⟨t', ht', hgt'⟩
      rcases List.mem_cons.1 ht' with h | h
      · subst h; exact absurd hgt' hgt
      · exact ⟨t', h, hgt'⟩

theorem loopTick_up_no_restart (s : Sys) (i : TickIn) (hu : i.wifiUp = true) :
    (loopTick s i).2.2 = false ∧ (loopTick s i).1.wifiReconnecting = false := by
  obtain ⟨tnow, up, inb, raw, rraw⟩ := i
  simp only at hu
  subst hu
  constructor
  · cases inb <;> rfl
  · unfold loopTick
    cases inb <;> (try dsimp only) <;> split_ifs <;>
      simp_all [processIRInterrupt_wifiReconnecting, readRadar_wifiReconnecting,
        updateStateMachine_wifiReconnecting, handleCommand_wifiReconnecting]


/-- C7: the device restart fires if and only if WiFi stays down past the
30000 ms reconnect timeout, measured from the tick that detects the loss
(time `d`): down ticks all within the window followed by recovery produce
no restart (and the supervisor returns to its idle state), a down tick past
the window produces the restart, and any run of the loop triggers at most
one restart. -/
theorem reconnect_timeout_restart (s0 : Sys) (d : Nat) (ts : List Nat) (u : TickIn)
    (h0 : s0.wifiReconnecting = false) (hu : u.wifiUp = true)
    (hts : ∀ t ∈ ts, d ≤ t ∧ t < W) :
    (∀ ticks : List TickIn, (runTicks s0 ticks).2 ≤ 1) ∧
    ((∀ t ∈ ts, t ≤ d + WIFI_RECONNECT_TIMEOUT) →
      (runTicks s0 (mkDown d :: (ts.map mkDown ++ [u]))).2 = 0 ∧
      (runTicks s0 (mkDown d :: (ts.map mkDown ++ [u]))).1.wifiReconnecting = false) ∧
    ((∃ t ∈ ts, t > d + WIFI_RECONNECT_TIMEOUT) →
      (runTicks s0 (mkDown d :: ts.map mkDown)).2 = 1) := by
  have hstep : ∀ rest : List TickIn,
      runTicks s0 (mkDown d :: rest) =
      runTicks { s0 with wifiReconnecting := true, wifiReconnectStart := d,
                         isConnectedToBackend := false } rest := by
    intro rest
    simp only [runTicks]
    rw [loopTick_down]
    unfold handleWiFiReconnect
    simp [h0]
  refine ⟨fun ticks => runTicks_restart_le_one ticks s0, ?_, ?_⟩
  · intro hin
    rw [hstep, runDown_passthrough d ts _ [u] rfl rfl
        (fun t h => ⟨(hts t h).1, (hts t h).2, hin t h⟩)]
    obtain ⟨hnr, hwr⟩ := loopTick_up_no_restart
      { s0 with wifiReconnecting := true, wifiReconnectStart := d,
                isConnectedToBackend := false } u hu
    constructor
    · simp only [runTicks, hnr, Bool.false_eq_true, if_false]
    · simp only [runTicks, hnr, Bool.false_eq_true, if_false]
      exact hwr
  · intro hex
    rw [hstep]
    exact runDown_exceeds d ts _ rfl rfl hts hex

theorem reconnect_timeout_restart_witness :
    (runTicks (initSys false) (mkDown 0 :: [40000].map mkDown)).2 = 1 :=
  (reconnect_timeout_restart (initSys false) 0 [40000]
      { now := 50000, wifiUp := true, inbound := none, rawLevel := false,
        radarRaw := false }
      rfl rfl (by decide)).2.2
    (by decide)

def RInv (s : Sys) (m : Option Nat) (last : Nat) : Prop :=
  (s.radarPresence = false ∧ s.radarLowStartTime = 0 → m = none) ∧
  (s.radarLowStartTime ≠ 0 →
    s.radarLowStartTime ≤ last ∧ ∀ t, m = some t → t < s.radarLowStartTime) ∧
  (s.radarPresence = false ∧ s.radarLowStartTime ≠ 0 →
    s.radarLowStartTime + RADAR_DEBOUNCE_MS ≤ last) ∧
  (∀ t, m = some t → t ≤ last)

theorem radarFilter_inv (s : Sys) (m : Option Nat) (last now : Nat) (r : Bool)
    (hinv : RInv s m last) (hlt : last < now) (hW : now < W) :
    RInv (radarFilter s now r) (if r = true then some now else m) now := by
  obtain ⟨i1, i2, i3, i4⟩ := hinv
  have hD : RADAR_DEBOUNCE_MS = 3000 := rfl
  have hnow0 : 0 < now := Nat.lt_of_le_of_lt (Nat.zero_le last) hlt
  have hself : usub now now = 0 := by
    rw [usub_eq (le_refl now) hW]
    omega
  cases r with
  | true =>
    have hs : radarFilter s now true =
        { s with radarPresence := true, radarLowStartTime := 0 } := by
      unfold radarFilter
      simp
    rw [hs]
    refine ⟨?_, ?_, ?_, ?_⟩ <;> simp
  | false =>
    by_cases hA : s.radarPresence = true ∧ s.radarLowStartTime = 0
    · have hs : radarFilter s now false = { s with radarLowStartTime := now } := by
        unfold radarFilter
        rw [if_neg (by simp)]
        dsimp only
        rw [if_pos hA]
        rw [if_neg (by simp [hself, hD])]
      rw [hs]
      refine ⟨?_, ?_, ?_, ?_⟩
      · intro h
        have hp : s.radarPresence = false := h.1
        rw [hA.1] at hp
        exact Bool.noConfusion hp
      · intro _
        refine ⟨le_refl now, fun t ht => ?_⟩
        exact Nat.lt_of_le_of_lt (i4 t ht) hlt
      · intro h
        have hp : s.radarPresence = false := h.1
        rw [hA.1] at hp
        exact Bool.noConfusion hp
      · intro t ht
        simp only [if_neg (by simp : ¬ (false = true))] at ht
        exact Nat.le_of_lt (Nat.lt_of_le_of_lt (i4 t ht) hlt)
    · have hs1 : (if s.radarPresence = true ∧ s.radarLowStartTime = 0
          then { s with radarLowStartTime := now } else s) = s := if_neg hA
      by_cases hB : s.radarLowStartTime > 0 ∧ usub now s.radarLowStartTime ≥ RADAR_DEBOUNCE_MS
      · have hs : radarFilter s now false = { s with radarPresence := false } := by
          unfold radarFilter
          rw [if_neg (by simp)]
          dsimp only
          rw [hs1, if_pos hB]
        have hl0 : s.radarLowStartTime ≠ 0 := by omega
        obtain ⟨hle, hmlt⟩ := i2 hl0
        have husub : usub now s.radarLowStartTime = now - s.radarLowStartTime :=
          usub_eq (le_trans hle (le_of_lt hlt)) hW
        have hwin : s.radarLowStartTime + RADAR_DEBOUNCE_MS ≤ now := by
          have := hB.2
          rw [husub] at this
          omega
        rw [hs]
        refine ⟨?_, ?_, ?_, ?_⟩
        · intro h
          exact absurd h.2 (by simpa using hl0)
        · intro _
          exact ⟨le_trans hle (le_of_lt hlt), fun t ht => hmlt t ht⟩
        · intro _
          simpa using hwin
        · intro t ht
          exact le_trans (i4 t ht) (le_of_lt hlt)
      · have hs : radarFilter s now false = s := by
          unfold radarFilter
          rw [if_neg (by simp)]
          dsimp only
          rw [hs1, if_neg hB]
        rw [hs]
        refine ⟨i1, ?_, ?_, ?_⟩
        · intro hl0
          exact ⟨le_trans (i2 hl0).1 (le_of_lt hlt), (i2 hl0).2⟩
        · intro h
          exact le_trans (i3 h) (le_of_lt hlt)
        · intro t ht
          exact le_trans (i4 t ht) (le_of_lt hlt)


theorem radarRun_inv :
    ∀ (rs : List (Nat × Bool)) (s : Sys) (m : Option Nat) (last : Nat),
      RInv s m last →
      List.Pairwise (· < ·) (last :: rs.map Prod.fst) →
      (∀ p ∈ rs, p.1 < W) →
      (radarRun s rs).radarPresence = false →
      ((∀ t, m = some t → t + RADAR_DEBOUNCE_MS < lastT last rs) ∧
       (∀ p ∈ rs, p.2 = true → p.1 + RADAR_DEBOUNCE_MS < lastT last rs)) := by
  intro rs
  induction rs with
  | nil =>
    intro s m last hinv _ _ hfin
    refine ⟨?_, by simp⟩
    intro t ht
    obtain ⟨i1, i2, i3, i4⟩ := hinv
    by_cases hl : s.radarLowStartTime = 0
    · have hnone := i1 ⟨hfin, hl⟩
      rw [hnone] at ht
      exact Option.noConfusion ht
    · obtain ⟨hle, hltm⟩ := i2 hl
      have h3 := i3 ⟨hfin, hl⟩
      have h4 := hltm t ht
      simp only [lastT]
      omega
  | cons p rest ih =>
    intro s m last hinv hmono hW hfin
    obtain ⟨t, r⟩ := p
    have hlt : last < t := (List.pairwise_cons.1 hmono).1 t (by simp)
    have hWt : t < W := hW (t, r) (by simp)
    have hstep := radarFilter_inv s m last t r hinv hlt hWt
    have hmono' : List.Pairwise (· < ·) (t :: rest.map Prod.fst) := by
      have h := (List.pairwise_cons.1 hmono).2
      simpa using h
    have hW' : ∀ q ∈ rest, q.1 < W := fun q hq => hW q (by simp [hq])
    have hfin' : (radarRun (radarFilter s t r) rest).radarPresence = false := hfin
    have IH := ih (radarFilter s t r) (if r = true then some t else m) t
      hstep hmono' hW' hfin'
    constructor
    · intro t' ht'
      cases r with
      | true =>
        have hm := IH.1 t (by simp)
        have ht'le : t' ≤ last := hinv.2.2.2 t' ht'
        simp only [lastT]
        have hD : RADAR_DEBOUNCE_MS = 3000 := rfl
        simp only [lastT] at hm
        omega
      | false =>
        have hm := IH.1 t' (by simpa using ht')
        simpa [lastT] using hm
    · intro q hq hq2
      rcases List.mem_cons.1 hq with h | h
      · subst h
        simp only at hq2
        subst hq2
        have hm := IH.1 t (by simp)
        simpa [lastT] using hm
      · have hm := IH.2 q h hq2
        simpa [lastT] using hm

/-- C8: the presence filter asserts occupancy immediately on a true raw
reading, and `occupied = false` after a run of strictly time-increasing
reads implies every `rawPresent = true` reading happened strictly more than
`RADAR_DEBOUNCE_MS` (3000 ms) before the final read time: no true reading
lies in the closed window `[T - 3000, T]`.  (Consecutive radar reads are at
least `SENSOR_INTERVAL_MS` apart in `loop()`, so strictly increasing read
times cover every execution.) -/
theorem presence_hysteresis (s0 : Sys) (rs : List (Nat × Bool))
    (_hp : s0.radarPresence = false) (hl : s0.radarLowStartTime = 0)
    (hmono : List.Pairwise (· < ·) (0 :: rs.map Prod.fst))
    (hW : ∀ p ∈ rs, p.1 < W)
    (hfin : (radarRun s0 rs).radarPresence = false) :
    (∀ (s : Sys) (now : Nat), (radarFilter s now true).radarPresence = true) ∧
    (∀ p ∈ rs, p.2 = true → p.1 + RADAR_DEBOUNCE_MS < lastT 0 rs) := by
  constructor
  · intro s now
    unfold radarFilter
    simp
  · have hinv : RInv s0 none 0 := by
      refine ⟨fun _ => rfl, ?_, ?_, ?_⟩
      · intro h
        exact absurd hl h
      · intro h
        exact absurd hl h.2
      · intro t ht
        exact Option.noConfusion ht
    exact (radarRun_inv rs s0 none 0 hinv hmono hW hfin).2

theorem presence_hysteresis_witness :
    (∀ (s : Sys) (now : Nat), (radarFilter s now true).radarPresence = true) ∧
    (∀ p ∈ ([(100, true), (200, false), (3300, false)] : List (Nat × Bool)),
      p.2 = true →
      p.1 + RADAR_DEBOUNCE_MS < lastT 0 [(100, true), (200, false), (3300, false)]) :=
  presence_hysteresis (initSys false) [(100, true), (200, false), (3300, false)]
    rfl rfl (by decide) (by decide) (by decide)

theorem enterState_currentState_of_ne (s : Sys) (now : Nat) (x : SystemState)
    (h : ¬ (x = s.currentState)) : (enterState s now x).1.currentState = x := by
  unfold enterState
  rw [if_neg h]
  cases x <;> simp <;> split <;> simp

theorem irRun_no_pending (evs : List IREv) : ∀ (s : Sys) (l : Bool),
    s.irTriggered = false → (∀ e ∈ evs, e.isEdge = false) →
    irRun (s, l) evs = ((s, l), 0, 0) := by
  induction evs with
  | nil => intro s l _ _; rfl
  | cons e rest ih =>
    intro s l hp hne
    have he : e.isEdge = false := hne e (List.mem_cons_self e rest)
    cases e with
    | edge t lvl => simp [IREv.isEdge] at he
    | poll t =>
      have hstep : irStep (s, l) (.poll t) = (s, l) := by
        unfold irStep processIRInterrupt
        simp [hp]
      simp only [irRun]
      dsimp only
      rw [hstep, ih s l hp (fun e' h' => hne e' (List.mem_cons_of_mem _ h'))]
      simp

theorem lastLevel_no_edges (evs : List IREv) : ∀ l : Bool,
    (∀ e ∈ evs, e.isEdge = false) → lastLevel l evs = l := by
  induction evs with
  | nil => intro l _; rfl
  | cons e rest ih =>
    intro l hne
    have he : e.isEdge = false := hne e (List.mem_cons_self e rest)
    cases e with
    | edge t lvl => simp [IREv.isEdge] at he
    | poll t =>
      simp only [lastLevel]
      exact ih l (fun e' h' => hne e' (List.mem_cons_of_mem _ h'))


theorem irRun_window (w : Nat) :
    ∀ (evs : List IREv) (s : Sys) (l : Bool),
      List.Pairwise (fun a e => a.time ≤ e.time) evs →
      (∀ e ∈ evs, e.time < W) →
      (∀ e ∈ evs, e.isEdge = true → w ≤ e.time ∧ e.time < w + IR_DEBOUNCE_MS) →
      (s.irTriggered = true →
        w ≤ s.irTriggerTime ∧ s.irTriggerTime < w + IR_DEBOUNCE_MS ∧
        ∀ e ∈ evs, s.irTriggerTime ≤ e.time) →
      ((irRun (s, l) evs).2.2 ≤ 1 ∧
       (irRun (s, l) evs).2.1 ≤ (irRun (s, l) evs).2.2 ∧
       ((irRun (s, l) evs).2.2 = 0 → (irRun (s, l) evs).1.1.boxOpen = s.boxOpen) ∧
       ((irRun (s, l) evs).2.2 = 1 →
         (irRun (s, l) evs).1.1.boxOpen = lastLevel l evs ∧
         lastLevel l evs ≠ s.boxOpen) ∧
       (lastLevel l evs = s.boxOpen → (irRun (s, l) evs).2.2 = 0)) := by
  intro evs
  induction evs with
  | nil =>
    intro s l _ _ _ _
    simp [irRun, lastLevel]
  | cons e rest ih =>
    intro s l hmono hWe hwin hpend
    have hhead := (List.pairwise_cons.1 hmono).1
    have hmono' := (List.pairwise_cons.1 hmono).2
    have hWe' : ∀ e' ∈ rest, e'.time < W :=
      fun e' h' => hWe e' (List.mem_cons_of_mem _ h')
    have hwin' : ∀ e' ∈ rest, e'.isEdge = true →
        w ≤ e'.time ∧ e'.time < w + IR_DEBOUNCE_MS :=
      fun e' h' he => hwin e' (List.mem_cons_of_mem _ h') he
    cases e with
    | edge t lvl =>
      have hwt := hwin (.edge t lvl) (List.mem_cons_self _ _) rfl
      have IH := ih (irISR s t) lvl hmono' hWe' hwin'
        (fun _ => ⟨hwt.1, hwt.2, fun e' h' => hhead e' h'⟩)
      simp only [irRun]
      rw [show irStep (s, l) (.edge t lvl) = (irISR s t, lvl) from rfl]
      simp only [lastLevel]
      simpa [irISR] using IH
    | poll t =>
      by_cases hpd : s.irTriggered = true
      · obtain ⟨hw1, hw2, hw3⟩ := hpend hpd
        have htt : s.irTriggerTime ≤ t := hw3 (.poll t) (List.mem_cons_self _ _)
        have hWt : t < W := hWe (.poll t) (List.mem_cons_self _ _)
        have husub : usub t s.irTriggerTime = t - s.irTriggerTime := usub_eq htt hWt
        by_cases hlt : usub t s.irTriggerTime < IR_DEBOUNCE_MS
        · have hstep : irStep (s, l) (.poll t) = (s, l) := by
            unfold irStep processIRInterrupt
            simp [hpd, hlt]
          have IH := ih s l hmono' hWe' hwin'
            (fun _ => ⟨hw1, hw2, fun e' h' => hw3 e' (List.mem_cons_of_mem _ h')⟩)
          simp only [irRun]
          rw [hstep]
          simp only [lastLevel]
          simpa using IH
        · have ht50 : w + IR_DEBOUNCE_MS ≤ t := by
            rw [husub] at hlt
            omega
          have hnoedge : ∀ e' ∈ rest, e'.isEdge = false := by
            intro e' h'
            by_contra hed
            have hed' : e'.isEdge = true := by simpa using hed
            have hwe2 := hwin e' (List.mem_cons_of_mem _ h') hed'
            have hte : t ≤ e'.time := hhead e' h'
            omega
          have hLL : lastLevel l rest = l := lastLevel_no_edges rest l hnoedge
          by_cases heq : l = s.boxOpen
          · have hstep : irStep (s, l) (.poll t) =
                ({ s with irTriggered := false }, l) := by
              unfold irStep processIRInterrupt
              simp [hpd, hlt, heq]
            have hrest := irRun_no_pending rest { s with irTriggered := false } l rfl
              hnoedge
            simp only [irRun]
            rw [hstep, hrest]
            simp [lastLevel, hLL, heq]
          · by_cases hvc : l = true ∧ s.currentState = .focusing
            · have hbo : s.boxOpen = false := by
                cases hb : s.boxOpen with
                | false => rfl
                | true => exact absurd (by rw [hvc.1, hb]) heq
              have hstep : irStep (s, l) (.poll t) =
                  ((enterState { s with irTriggered := false, boxOpen := l } t
                    .violation).1, l) := by
                unfold irStep processIRInterrupt
                simp [hpd, hlt, hvc.1, hvc.2, hbo]
              have hqcur : (enterState { s with irTriggered := false, boxOpen := l } t
                  .violation).1.currentState = .violation := by
                apply enterState_currentState_of_ne
                show ¬ (SystemState.violation = s.currentState)
                rw [hvc.2]
                simp
              have hqbox : (enterState { s with irTriggered := false, boxOpen := l } t
                  .violation).1.boxOpen = l :=
                enterState_boxOpen _ _ _
              have hqtrig : (enterState { s with irTriggered := false, boxOpen := l } t
                  .violation).1.irTriggered = false :=
                enterState_irTriggered _ _ _
              have hrest := irRun_no_pending rest _ l hqtrig hnoedge
              have hsv : ¬ (s.currentState = SystemState.violation) := by
                rw [hvc.2]
                simp
              simp only [irRun]
              rw [hstep, hrest]
              simp [lastLevel, hLL, hqcur, hqbox, heq, hsv]
            · have hstep : irStep (s, l) (.poll t) =
                  ({ s with irTriggered := false, boxOpen := l }, l) := by
                unfold irStep processIRInterrupt
                simp [hpd, hlt, heq]
                rw [if_neg hvc]
              have hrest := irRun_no_pending rest
                { s with irTriggered := false, boxOpen := l } l rfl hnoedge
              simp only [irRun]
              rw [hstep, hrest]
              simp [lastLevel, hLL, heq]
      · have hpd' : s.irTriggered = false := by simpa using hpd
        have hstep : irStep (s, l) (.poll t) = (s, l) := by
          unfold irStep processIRInterrupt
          simp [hpd']
        have IH := ih s l hmono' hWe' hwin'
          (fun h => absurd h (by simp [hpd']))
        simp only [irRun]
        rw [hstep]
        simp only [lastLevel]
        simpa using IH


/-- C2 counterexample: while Focusing with the lid closed, raw edges at
100, 120 and 140 ms (open / closed / open, all inside one 50 ms debounce
window) followed by a poll at 200 ms produce exactly one transition into
Violation, not zero: the raw level held at the end of the window is open,
so once the line has been quiet for 50 ms the debounced change fires and
the claim's "zero Violation transitions" fails. -/
theorem bounce_open_close_open_violation_count :
    (irRun ({ initSys false with currentState := .focusing }, false)
      [.edge 100 true, .edge 120 false, .edge 140 true, .poll 200]).2.1 = 1 := by
  decide

/-- C2 (amended): for every sequence of raw edges delivered within one
50 ms debounce window (interleaved with arbitrary polls, timestamps
monotone), the debouncer produces at most one stable-level change, and a
change that does occur equals the raw level held at the end of the window;
in particular a bounce whose final raw level equals the initial stable
level (e.g. open/closed/open/closed while Focusing) causes zero transitions
into Violation — a bounce ending open, however, produces its single change
and hence one Violation once the line has settled (see the
counterexample). -/
theorem debouncer_coalesces (s : Sys) (w : Nat) (evs : List IREv)
    (hp : s.irTriggered = false)
    (hmono : List.Pairwise (fun a e => a.time ≤ e.time) evs)
    (hWe : ∀ e ∈ evs, e.time < W)
    (hwin : ∀ e ∈ evs, e.isEdge = true → w ≤ e.time ∧ e.time < w + IR_DEBOUNCE_MS) :
    (irRun (s, s.boxOpen) evs).2.2 ≤ 1 ∧
    ((irRun (s, s.boxOpen) evs).2.2 = 1 →
      (irRun (s, s.boxOpen) evs).1.1.boxOpen = lastLevel s.boxOpen evs) ∧
    (lastLevel s.boxOpen evs = s.boxOpen →
      (irRun (s, s.boxOpen) evs).2.1 = 0 ∧ (irRun (s, s.boxOpen) evs).2.2 = 0) := by
  have H := irRun_window w evs s s.boxOpen hmono hWe hwin
    (fun h => absurd h (by simp [hp]))
  obtain ⟨h1, h2, h3, h4, h5⟩ := H
  refine ⟨h1, fun hc => (h4 hc).1, fun hL => ?_⟩
  have hz := h5 hL
  refine ⟨?_, hz⟩
  rw [hz] at h2
  exact Nat.le_zero.mp h2

theorem debouncer_coalesces_witness :
    (irRun ({ initSys false with currentState := .focusing }, false)
      [.edge 100 true, .edge 120 false, .edge 140 true, .edge 145 false,
       .poll 200, .poll 300]).2.1 = 0 ∧
    (irRun ({ initSys false with currentState := .focusing }, false)
      [.edge 100 true, .edge 120 false, .edge 140 true, .edge 145 false,
       .poll 200, .poll 300]).2.2 = 0 :=
  (debouncer_coalesces { initSys false with currentState := .focusing } 100
    [.edge 100 true, .edge 120 false, .edge 140 true, .edge 145 false,
     .poll 200, .poll 300]
    rfl (by decide) (by decide) (by decide)).2.2 (by decide)

end FocusEnforcer

